import Mathlib

/-!
Shallow embedding of the core of the ceros-ski game:
the player state machine (src/Entities/Skier.ts) and the per-frame
orchestration loop (src/Core/Game.ts).

Conventions of the embedding:
* TypeScript `number` positions become rationals (ℚ); the speed, which
  the source only ever sets to integer values, becomes an integer; the
  score is a natural number (it only ever increments by 1 from 0).
* The skier's `direction` is a raw integer, exactly as in the source
  (five named constants 0..4, arithmetic `direction - 1` / `+ 1`).
* Each mutating method `m()` of the source becomes a function
  `Skier → Skier` (state passed explicitly).
* Collaborators that live outside src/ (the obstacle query geometry of
  Core/Utils.ts, the animation timer of Core/Animation.ts) enter as
  parameters of `update`: `firstHit` is the image name of the first
  obstacle whose bounds intersect the skier's (`none` when there is no
  intersection or no bounds), and `jumpAnimationComplete` tells whether
  the jump animation finishes during this frame's `animate` call.
-/

namespace CerosSki

/-- The IMAGE_NAMES tags used by the skier logic: the directional skier
images, the crash image, and the obstacle tags. The full enumeration
lives in src/Constants.ts which is not under src/; the members below are
the ones named by Skier.ts and by the spec's closed obstacle set
(trees, rocks, ramp). -/
inductive ImageName where
  | skierCrash
  | skierLeft
  | skierLeftDown
  | skierDown
  | skierRightDown
  | skierRight
  | tree
  | treeCluster
  | rock1
  | rock2
  | jumpRamp
  deriving DecidableEq, Repr

/-- The STATES enum of Skier.ts. -/
inductive SkierState where
  | skiing
  | jumping
  | crashed
  | dead
  deriving DecidableEq, Repr

/-- STARTING_SPEED from Skier.ts. Every value the source ever assigns to
the skier's speed is an integer (5 at the start, `speed++`, 0 on crash
or death, a copy of an earlier speed on landing), so speeds are embedded
as integers; they are cast to ℚ where the source feeds them into the
rational position arithmetic. -/
def STARTING_SPEED : ℤ := 5

/-- Modelled from the spec: SPEED_INCREASE_THRESHOLD is defined in
src/Constants.ts, which is not under src/; the spec fixes it at 10
("starting speed = 5, threshold = 10"). -/
def SPEED_INCREASE_THRESHOLD : Nat := 10

/-- Modelled from the spec: DIAGONAL_SPEED_REDUCER is defined in
src/Constants.ts, which is not under src/; the spec describes it as the
diagonal-normalization constant, "the hypotenuse scale factor", i.e. a
fixed-precision approximation of √2. -/
def DIAGONAL_SPEED_REDUCER : ℚ := 14142 / 10000

/-- Direction constants of Skier.ts (raw ordered integers). -/
def DIRECTION_LEFT : ℤ := 0

/-- DIRECTION_LEFT_DOWN from Skier.ts. -/
def DIRECTION_LEFT_DOWN : ℤ := 1

/-- DIRECTION_DOWN from Skier.ts. -/
def DIRECTION_DOWN : ℤ := 2

/-- DIRECTION_RIGHT_DOWN from Skier.ts. -/
def DIRECTION_RIGHT_DOWN : ℤ := 3

/-- DIRECTION_RIGHT from Skier.ts. -/
def DIRECTION_RIGHT : ℤ := 4

/-- DIRECTION_IMAGES from Skier.ts: a partial map from the raw direction
integer to the image to display (`none` models the JS `undefined` for an
integer outside the table). -/
def DIRECTION_IMAGES (direction : ℤ) : Option ImageName :=
  if direction = DIRECTION_LEFT then some .skierLeft
  else if direction = DIRECTION_LEFT_DOWN then some .skierLeftDown
  else if direction = DIRECTION_DOWN then some .skierDown
  else if direction = DIRECTION_RIGHT_DOWN then some .skierRightDown
  else if direction = DIRECTION_RIGHT then some .skierRight
  else none

/-- JUMPABLE_OBSTACLES from Skier.ts. -/
def JUMPABLE_OBSTACLES : List ImageName := [.rock1, .rock2, .jumpRamp]

/-- A world-coordinate position, as held by Entity. -/
structure Position where
  x : ℚ
  y : ℚ
  deriving DecidableEq, Repr

/-- The mutable fields of the Skier entity (Skier.ts). -/
structure Skier where
  state : SkierState
  direction : ℤ
  speed : ℤ
  position : Position
  imageName : Option ImageName
  deriving DecidableEq, Repr

/-- The skier as built by the constructor: state skiing, facing down,
at the starting speed, showing the downhill image. -/
def Skier.initialSkier : Skier :=
  { state := .skiing
    direction := DIRECTION_DOWN
    speed := STARTING_SPEED
    position := { x := 0, y := 0 }
    imageName := some .skierDown }

/-- Skier.isCrashed. -/
def Skier.isCrashed (s : Skier) : Bool := s.state = .crashed

/-- Skier.isSkiing. -/
def Skier.isSkiing (s : Skier) : Bool := s.state = .skiing

/-- Skier.isJumping. -/
def Skier.isJumping (s : Skier) : Bool := s.state = .jumping

/-- Skier.isDead. -/
def Skier.isDead (s : Skier) : Bool := s.state = .dead

/-- Skier.isDownwardsFacing: the switch over the three downward-component
directions. -/
def Skier.isDownwardsFacing (s : Skier) : Bool :=
  s.direction = DIRECTION_DOWN ∨ s.direction = DIRECTION_LEFT_DOWN ∨
    s.direction = DIRECTION_RIGHT_DOWN

/-- Skier.isMovingDownwards. -/
def Skier.isMovingDownwards (s : Skier) : Bool :=
  s.isDownwardsFacing && (0 < s.speed : Bool)

/-- Skier.setDirectionalImage. -/
def Skier.setDirectionalImage (s : Skier) : Skier :=
  { s with imageName := DIRECTION_IMAGES s.direction }

/-- Skier.setDirection. -/
def Skier.setDirection (s : Skier) (direction : ℤ) : Skier :=
  Skier.setDirectionalImage { s with direction := direction }

/-- Skier.moveSkierLeft. -/
def Skier.moveSkierLeft (s : Skier) : Skier :=
  { s with position := { s.position with x := s.position.x - (STARTING_SPEED : ℚ) } }

/-- Skier.moveSkierLeftDown. -/
def Skier.moveSkierLeftDown (s : Skier) : Skier :=
  { s with position :=
      { x := s.position.x - (s.speed : ℚ) / DIAGONAL_SPEED_REDUCER
        y := s.position.y + (s.speed : ℚ) / DIAGONAL_SPEED_REDUCER } }

/-- Skier.moveSkierDown. -/
def Skier.moveSkierDown (s : Skier) : Skier :=
  { s with position := { s.position with y := s.position.y + (s.speed : ℚ) } }

/-- Skier.moveSkierRightDown. -/
def Skier.moveSkierRightDown (s : Skier) : Skier :=
  { s with position :=
      { x := s.position.x + (s.speed : ℚ) / DIAGONAL_SPEED_REDUCER
        y := s.position.y + (s.speed : ℚ) / DIAGONAL_SPEED_REDUCER } }

/-- Skier.moveSkierRight. -/
def Skier.moveSkierRight (s : Skier) : Skier :=
  { s with position := { s.position with x := s.position.x + (STARTING_SPEED : ℚ) } }

/-- Skier.moveSkierUp. -/
def Skier.moveSkierUp (s : Skier) : Skier :=
  { s with position := { s.position with y := s.position.y - (STARTING_SPEED : ℚ) } }

/-- Skier.move: the switch over the current direction; fully horizontal
directions (and any other integer) produce no per-frame movement. -/
def Skier.move (s : Skier) : Skier :=
  if s.direction = DIRECTION_LEFT_DOWN then s.moveSkierLeftDown
  else if s.direction = DIRECTION_DOWN then s.moveSkierDown
  else if s.direction = DIRECTION_RIGHT_DOWN then s.moveSkierRightDown
  else s

/-- Skier.increaseSpeedIfThresholdMet: `if(currentScore %
SPEED_INCREASE_THRESHOLD === 0) this.speed++` — note that the source
performs no state check here. -/
def Skier.increaseSpeedIfThresholdMet (s : Skier) (currentScore : Nat) : Skier :=
  if currentScore % SPEED_INCREASE_THRESHOLD = 0 then { s with speed := s.speed + 1 }
  else s

/-- Skier.crash. -/
def Skier.crash (s : Skier) : Skier :=
  { s with state := .crashed, speed := 0, imageName := some .skierCrash }

/-- Skier.recoverFromCrash. -/
def Skier.recoverFromCrash (s : Skier) (newDirection : ℤ) : Skier :=
  Skier.setDirection { s with state := .skiing, speed := STARTING_SPEED } newDirection

/-- Skier.landFromJump: the argument is whatever the caller passes; the
animation callback registered in setupAnimations passes `this.speed` as
evaluated when the callback fires. -/
def Skier.landFromJump (s : Skier) (currentSpeed : ℤ) : Skier :=
  { s with state := .skiing, speed := currentSpeed }

/-- Skier.die. -/
def Skier.die (s : Skier) : Skier :=
  { s with state := .dead, speed := 0 }

/-- Skier.jump: guarded by isCrashed; setAnimation only touches the
external animation helper. -/
def Skier.jump (s : Skier) : Skier :=
  if s.isCrashed then s else { s with state := .jumping }

/-- Skier.turnLeft: recover first when crashed, then (unless jumping)
either sidestep when already fully left or shift the direction one step
left. -/
def Skier.turnLeft (s : Skier) : Skier :=
  let s1 := if s.isCrashed then s.recoverFromCrash DIRECTION_LEFT else s
  if s1.state ≠ .jumping then
    if s1.direction = DIRECTION_LEFT then s1.moveSkierLeft
    else s1.setDirection (s1.direction - 1)
  else s1

/-- Skier.turnRight: mirror image of turnLeft. -/
def Skier.turnRight (s : Skier) : Skier :=
  let s1 := if s.isCrashed then s.recoverFromCrash DIRECTION_RIGHT else s
  if s1.state ≠ .jumping then
    if s1.direction = DIRECTION_RIGHT then s1.moveSkierRight
    else s1.setDirection (s1.direction + 1)
  else s1

/-- Skier.turnUp: only nudges upward when fully horizontal, never when
crashed. -/
def Skier.turnUp (s : Skier) : Skier :=
  if s.isCrashed then s
  else if s.direction = DIRECTION_LEFT ∨ s.direction = DIRECTION_RIGHT then
    s.moveSkierUp
  else s

/-- Skier.turnDown: returns early when crashed, otherwise forces the
direction to down (the source has no jumping guard here). -/
def Skier.turnDown (s : Skier) : Skier :=
  if s.isCrashed then s else s.setDirection DIRECTION_DOWN

/-- The logical keys routed to the skier; KEYS lives in src/Constants.ts
(not under src/), so the keys are modelled from the spec's keyboard
surface: jump (space), the four turns, and `other` for any key the
skier does not recognize. -/
inductive GameKey where
  | space
  | left
  | right
  | up
  | down
  | other (key : String)
  deriving DecidableEq, Repr

/-- Skier.handleInput: returns whether the key was consumed, together
with the updated skier. -/
def Skier.handleInput (s : Skier) (inputKey : GameKey) : Bool × Skier :=
  if s.isDead then (false, s)
  else
    match inputKey with
    | .space => (true, s.jump)
    | .left => (true, s.turnLeft)
    | .right => (true, s.turnRight)
    | .up => (true, s.turnUp)
    | .down => (true, s.turnDown)
    | .other _ => (false, s)

/-- Skier.interactWhileSkiing: ramps cause a jump, everything else a
crash. -/
def Skier.interactWhileSkiing (s : Skier) (obstacle : ImageName) : Skier :=
  if obstacle = .jumpRamp then s.jump else s.crash

/-- Skier.interactWhileJumping: crash on any obstacle outside
JUMPABLE_OBSTACLES. -/
def Skier.interactWhileJumping (s : Skier) (imageName : ImageName) : Skier :=
  if imageName ∈ JUMPABLE_OBSTACLES then s else s.crash

/-- Skier.interactWithObstacle: the two ifs are sequential in the
source, so a ramp hit while skiing also flows through the jumping arm. -/
def Skier.interactWithObstacle (s : Skier) (obstacle : ImageName) : Skier :=
  let s1 := if s.state = .skiing then s.interactWhileSkiing obstacle else s
  if s1.state = .jumping then s1.interactWhileJumping obstacle else s1

/-- Skier.checkIfHitObstacle, with the geometric query (bounds of the
skier image and of each obstacle, intersectTwoRects over the obstacle
list — code outside src/) abstracted into its result: the image name of
the first intersecting obstacle, if any. -/
def Skier.checkIfHitObstacle (s : Skier) (firstHit : Option ImageName) : Skier :=
  match firstHit with
  | some obstacle => s.interactWithObstacle obstacle
  | none => s

/-- Entity.animate for the skier's jump animation (Core/Animation.ts is
outside src/): when the non-looping jump animation finishes during this
frame, the callback registered in setupAnimations fires, and that
callback is literally `() => this.landFromJump(this.speed)` — it reads
the speed at callback time. -/
def Skier.animate (s : Skier) (jumpAnimationComplete : Bool) : Skier :=
  if jumpAnimationComplete then s.landFromJump s.speed else s

/-- Skier.update: move and collide while skiing, then (on the possibly
updated state) move, animate and collide while jumping, then the
unconditional speed-threshold check. -/
def Skier.update (s : Skier) (firstHit : Option ImageName)
    (jumpAnimationComplete : Bool) (currentScore : Nat) : Skier :=
  let s1 := if s.isSkiing then (s.move).checkIfHitObstacle firstHit else s
  let s2 :=
    if s1.isJumping then
      ((s1.move).animate jumpAnimationComplete).checkIfHitObstacle firstHit
    else s1
  s2.increaseSpeedIfThresholdMet currentScore

/-- The STATES enum of Game.ts. -/
inductive GameMode where
  | playing
  | paused
  deriving DecidableEq, Repr

/-- The Game fields the orchestration logic reads and writes: the
playing/paused mode, the score, and the skier. The clock, viewport,
canvas, obstacle manager and rhino are external collaborators whose
own data does not feed back into these fields. -/
structure Game where
  mode : GameMode
  currentScore : Nat
  skier : Skier
  deriving DecidableEq, Repr

/-- The game as built by init(): playing, score 0, a fresh skier. -/
def Game.initialGame : Game :=
  { mode := .playing, currentScore := 0, skier := Skier.initialSkier }

/-- Game.isPlaying. -/
def Game.isPlaying (g : Game) : Bool := g.mode = .playing

/-- Game.isPaused. -/
def Game.isPaused (g : Game) : Bool := g.mode = .paused

/-- Game.updateCurrentScore: increment the score exactly when the skier
is moving downwards. -/
def Game.updateCurrentScore (g : Game) : Game :=
  if g.skier.isMovingDownwards then { g with currentScore := g.currentScore + 1 }
  else g

/-- Game.updateGameWindow, restricted to the state the core claims are
about: it unconditionally updates the skier (passing the current score),
with the clock advance, viewport recomputation, obstacle placement and
rhino update acting on external collaborators. The source performs no
check of the skier's state here. -/
def Game.updateGameWindow (g : Game) (firstHit : Option ImageName)
    (jumpAnimationComplete : Bool) : Game :=
  { g with skier := g.skier.update firstHit jumpAnimationComplete g.currentScore }

/-- One iteration of the body of Game.run: while playing, update the
game window (entity updates) and then the score; drawing and the
re-scheduling call touch only the rendering collaborators. While
paused the iteration does nothing to this state. -/
def Game.runFrame (g : Game) (firstHit : Option ImageName)
    (jumpAnimationComplete : Bool) : Game :=
  if g.isPlaying then
    (g.updateGameWindow firstHit jumpAnimationComplete).updateCurrentScore
  else g

/-- The run of the concrete spec scenario: the skier stays skiing and
facing down from the initial state (no obstacle is ever hit), iterated
for n frames. -/
def Game.downhillRun : Nat → Game
  | 0 => Game.initialGame
  | n + 1 => (Game.downhillRun n).runFrame none false

/-- Updating the score never touches the skier. -/
theorem Game.updateCurrentScore_skier (g : Game) :
    (g.updateCurrentScore).skier = g.skier := by
  unfold Game.updateCurrentScore
  split <;> rfl

/-- Claim C1: the claimed invariant `speed = 0 whenever state ∈ {Crashed,
Dead}` is broken by `update`: a skier who crashes into a tree on the very
first frame (current score 0, and 0 is a multiple of
SPEED_INCREASE_THRESHOLD) ends that same `update` call in the Crashed
state with speed 1, because increaseSpeedIfThresholdMet runs
unconditionally after the collision handling. -/
theorem C1_update_increments_speed_while_crashed :
    (Skier.update Skier.initialSkier (some .tree) false 0).state = SkierState.crashed ∧
    (Skier.update Skier.initialSkier (some .tree) false 0).speed = 1 := by
  decide

/-- Claim C2: the jump-completion callback does not restore the speed
held at jump start. Starting a jump at speed 5, one mid-jump frame at a
score that is a multiple of the threshold raises the speed to 6; when
the animation then completes, the callback passes the current speed, so
the skier lands Skiing at speed 6, not at the jump-start speed 5. -/
theorem C2_landing_keeps_midjump_speed_increase :
    (Skier.initialSkier.jump).speed = 5 ∧
    ((Skier.initialSkier.jump).update none false 10).state = SkierState.jumping ∧
    (((Skier.initialSkier.jump).update none false 10).update none true 11).state =
      SkierState.skiing ∧
    (((Skier.initialSkier.jump).update none false 10).update none true 11).speed = 6 := by
  decide

/-- Claim C3, counterexample: in the pure downhill run the speed is not
5 until the score reaches 10 — after the very first frame the score is
only 1, the skier is still Skiing and facing Down, yet the speed is
already 6 (score 0 is a multiple of the threshold and fires the check). -/
theorem C3_counterexample_first_frame_speed :
    (Game.downhillRun 1).currentScore = 1 ∧
    (Game.downhillRun 1).skier.state = SkierState.skiing ∧
    (Game.downhillRun 1).skier.direction = DIRECTION_DOWN ∧
    ¬ (Game.downhillRun 1).skier.speed = 5 := by
  decide

/-- Claim C3, amended: in the pure downhill run the score equals the
frame count, the skier stays Skiing and facing Down, and the speed is 6
from the first frame (score 0 already triggers the threshold check)
until the score reaches 10, then 7 from the frame that crosses score 10
until the score reaches 20. -/
theorem C3_amended_speed_schedule (n : Nat) (h : n < 21) :
    (Game.downhillRun n).currentScore = n ∧
    (Game.downhillRun n).skier.state = SkierState.skiing ∧
    (Game.downhillRun n).skier.direction = DIRECTION_DOWN ∧
    (n = 0 → (Game.downhillRun n).skier.speed = 5) ∧
    (1 ≤ n → n ≤ 10 → (Game.downhillRun n).skier.speed = 6) ∧
    (11 ≤ n → (Game.downhillRun n).skier.speed = 7) := by
  revert h
  revert n
  decide

/-- Witness for C3's amended theorem at frame 11. -/
theorem C3_amended_speed_schedule_witness :
    11 < 21 ∧
    ((Game.downhillRun 11).currentScore = 11 ∧
     (Game.downhillRun 11).skier.state = SkierState.skiing ∧
     (Game.downhillRun 11).skier.direction = DIRECTION_DOWN ∧
     (11 = 0 → (Game.downhillRun 11).skier.speed = 5) ∧
     (1 ≤ 11 → 11 ≤ 10 → (Game.downhillRun 11).skier.speed = 6) ∧
     (11 ≤ 11 → (Game.downhillRun 11).skier.speed = 7)) :=
  ⟨by decide, C3_amended_speed_schedule 11 (by decide)⟩

/-- Claim C4: turning is not fully disabled while Jumping. A skier who
turns left once (facing LeftDown) and then jumps is in the Jumping
state; handling the turn-down input changes the direction from LeftDown
to Down, because turnDown lacks the jumping guard that turnLeft and
turnRight have. -/
theorem C4_turnDown_turns_while_jumping :
    ((Skier.initialSkier.turnLeft).jump).state = SkierState.jumping ∧
    ((Skier.initialSkier.turnLeft).jump).direction = DIRECTION_LEFT_DOWN ∧
    (((Skier.initialSkier.turnLeft).jump).handleInput GameKey.down).2.direction =
      DIRECTION_DOWN := by
  decide

/-- Claim C5, counterexample: the orchestrator never detects the Dead
state. With the game Playing, a dead skier (speed 0) and score 0, the
very next frame still drives the skier update, visibly: the dead
skier's speed becomes 1 (the unconditional threshold check ran inside
skier.update). -/
theorem C5_counterexample_dead_player_still_updated :
    ({ mode := .playing, currentScore := 0, skier := Skier.initialSkier.die } :
        Game).skier.speed = 0 ∧
    (({ mode := .playing, currentScore := 0, skier := Skier.initialSkier.die } :
        Game).runFrame none false).skier.state = SkierState.dead ∧
    (({ mode := .playing, currentScore := 0, skier := Skier.initialSkier.die } :
        Game).runFrame none false).skier.speed = 1 := by
  decide

/-- Claim C5, amended: while the game is Playing, every frame keeps
invoking the entity updates regardless of the skier being Dead; the dead
skier's update skips movement and collision but still runs the speed
threshold check, so whenever the score is a multiple of the threshold
the dead skier's speed increments. -/
theorem C5_amended_updates_continue_after_death (g : Game)
    (firstHit : Option ImageName) (a : Bool)
    (hp : g.mode = GameMode.playing) (hd : g.skier.state = SkierState.dead)
    (hs : g.currentScore % SPEED_INCREASE_THRESHOLD = 0) :
    (g.runFrame firstHit a).skier.state = SkierState.dead ∧
    (g.runFrame firstHit a).skier.speed = g.skier.speed + 1 := by
  have hplay : g.isPlaying = true := by simp [Game.isPlaying, hp]
  simp [Game.runFrame, hplay, Game.updateCurrentScore_skier, Game.updateGameWindow,
    Skier.update, Skier.isSkiing, Skier.isJumping, hd,
    Skier.increaseSpeedIfThresholdMet, hs]

/-- Witness for C5's amended theorem: a Playing game, a dead skier, and
score 10 (a multiple of the threshold). -/
theorem C5_amended_updates_continue_after_death_witness :
    ({ mode := .playing, currentScore := 10, skier := Skier.initialSkier.die } :
        Game).mode = GameMode.playing ∧
    ({ mode := .playing, currentScore := 10, skier := Skier.initialSkier.die } :
        Game).skier.state = SkierState.dead ∧
    (10 : Nat) % SPEED_INCREASE_THRESHOLD = 0 ∧
    ((({ mode := .playing, currentScore := 10, skier := Skier.initialSkier.die } :
        Game).runFrame none false).skier.state = SkierState.dead ∧
     (({ mode := .playing, currentScore := 10, skier := Skier.initialSkier.die } :
        Game).runFrame none false).skier.speed =
       ({ mode := .playing, currentScore := 10, skier := Skier.initialSkier.die } :
        Game).skier.speed + 1) :=
  ⟨rfl, rfl, by decide,
    C5_amended_updates_continue_after_death _ none false rfl rfl (by decide)⟩

/-- Claim C6: the obstacle interaction dispatches on (state, obstacle
type): while Skiing, any non-ramp obstacle crashes the skier (speed 0,
regardless of prior speed or direction) and a ramp puts them in
Jumping; while Jumping, a jumpable obstacle (rock or ramp) leaves the
skier unchanged and a non-jumpable one crashes them with speed 0. -/
theorem C6_obstacle_interaction_dispatch (s : Skier) (o : ImageName) :
    (s.state = SkierState.skiing →
      (o ≠ ImageName.jumpRamp →
        (s.interactWithObstacle o).state = SkierState.crashed ∧
        (s.interactWithObstacle o).speed = 0) ∧
      (o = ImageName.jumpRamp →
        (s.interactWithObstacle o).state = SkierState.jumping)) ∧
    (s.state = SkierState.jumping →
      (o ∈ JUMPABLE_OBSTACLES → s.interactWithObstacle o = s) ∧
      (o ∉ JUMPABLE_OBSTACLES →
        (s.interactWithObstacle o).state = SkierState.crashed ∧
        (s.interactWithObstacle o).speed = 0)) := by
  refine ⟨fun hs => ⟨fun ho => ?_, fun ho => ?_⟩, fun hj => ⟨fun ho => ?_, fun ho => ?_⟩⟩ <;>
    cases o <;>
      simp_all [Skier.interactWithObstacle, Skier.interactWhileSkiing,
        Skier.interactWhileJumping, Skier.jump, Skier.crash, Skier.isCrashed,
        JUMPABLE_OBSTACLES]

/-- Witness for C6: the initial (Skiing) skier hitting a tree is crashed
at speed 0. -/
theorem C6_obstacle_interaction_dispatch_witness :
    Skier.initialSkier.state = SkierState.skiing ∧
    ((Skier.initialSkier.interactWithObstacle ImageName.tree).state =
        SkierState.crashed ∧
     (Skier.initialSkier.interactWithObstacle ImageName.tree).speed = 0) :=
  ⟨rfl, ((C6_obstacle_interaction_dispatch Skier.initialSkier ImageName.tree).1 rfl).1
    (by decide)⟩

/-- Claim C7: per-frame movement as a function of direction: Down adds
exactly the speed to y and keeps x; LeftDown and RightDown change both
coordinates by speed / DIAGONAL_SPEED_REDUCER, with the x change signed
by the horizontal component; fully Left or Right produce no per-frame
movement. -/
theorem C7_per_frame_movement (s : Skier) :
    (s.direction = DIRECTION_DOWN →
      (s.move).position.y = s.position.y + (s.speed : ℚ) ∧
      (s.move).position.x = s.position.x) ∧
    (s.direction = DIRECTION_LEFT_DOWN →
      (s.move).position.x = s.position.x - (s.speed : ℚ) / DIAGONAL_SPEED_REDUCER ∧
      (s.move).position.y = s.position.y + (s.speed : ℚ) / DIAGONAL_SPEED_REDUCER) ∧
    (s.direction = DIRECTION_RIGHT_DOWN →
      (s.move).position.x = s.position.x + (s.speed : ℚ) / DIAGONAL_SPEED_REDUCER ∧
      (s.move).position.y = s.position.y + (s.speed : ℚ) / DIAGONAL_SPEED_REDUCER) ∧
    (s.direction = DIRECTION_LEFT ∨ s.direction = DIRECTION_RIGHT → s.move = s) := by
  refine ⟨fun h => ?_, fun h => ?_, fun h => ?_, fun h => ?_⟩
  · simp [Skier.move, h, DIRECTION_DOWN, DIRECTION_LEFT_DOWN, Skier.moveSkierDown]
  · simp [Skier.move, h, DIRECTION_LEFT_DOWN, Skier.moveSkierLeftDown]
  · simp [Skier.move, h, DIRECTION_RIGHT_DOWN, DIRECTION_LEFT_DOWN, DIRECTION_DOWN,
      Skier.moveSkierRightDown]
  · rcases h with h | h <;>
      simp [Skier.move, h, DIRECTION_LEFT, DIRECTION_RIGHT, DIRECTION_LEFT_DOWN,
        DIRECTION_DOWN, DIRECTION_RIGHT_DOWN]

/-- Witness for C7: the initial skier faces Down and moves down by its
speed with x unchanged. -/
theorem C7_per_frame_movement_witness :
    Skier.initialSkier.direction = DIRECTION_DOWN ∧
    ((Skier.initialSkier.move).position.y =
        Skier.initialSkier.position.y + (Skier.initialSkier.speed : ℚ) ∧
     (Skier.initialSkier.move).position.x = Skier.initialSkier.position.x) :=
  ⟨rfl, (C7_per_frame_movement Skier.initialSkier).1 rfl⟩

/-- Claim C8: a Crashed player can gain score. Starting from the initial
game, hitting a tree on frame 1 leaves the skier Crashed but with speed
1 (the score 0 threshold check fires after the crash), and the score
already reaches 1 in that frame; in frame 2 the skier is Crashed
throughout, yet the score still climbs to 2 because the crashed skier
is downward-facing with positive speed. -/
theorem C8_crashed_player_gains_score :
    (Game.initialGame.runFrame (some .tree) false).skier.state = SkierState.crashed ∧
    (Game.initialGame.runFrame (some .tree) false).currentScore = 1 ∧
    ((Game.initialGame.runFrame (some .tree) false).runFrame none false).skier.state =
      SkierState.crashed ∧
    ((Game.initialGame.runFrame (some .tree) false).runFrame none false).currentScore =
      2 := by
  decide

/-- Claim C9: handleInput returns whether the key was consumed: a Dead
skier consumes nothing and is unchanged, and otherwise the key is
consumed exactly when it is one of jump, turn-left, turn-right,
turn-up, turn-down. -/
theorem C9_handleInput_contract (s : Skier) (k : GameKey) :
    (s.state = SkierState.dead → s.handleInput k = (false, s)) ∧
    (s.state ≠ SkierState.dead →
      ((s.handleInput k).1 = true ↔
        k = GameKey.space ∨ k = GameKey.left ∨ k = GameKey.right ∨
          k = GameKey.up ∨ k = GameKey.down)) := by
  constructor
  · intro h
    simp [Skier.handleInput, Skier.isDead, h]
  · intro h
    cases k <;> simp [Skier.handleInput, Skier.isDead, h]

/-- Witness for C9: a dead skier consumes no key and is unchanged. -/
theorem C9_handleInput_contract_witness :
    (Skier.initialSkier.die).state = SkierState.dead ∧
    (Skier.initialSkier.die).handleInput GameKey.left = (false, Skier.initialSkier.die) :=
  ⟨rfl, (C9_handleInput_contract (Skier.initialSkier.die) GameKey.left).1 rfl⟩

/-- Claim C10: a single turn-left (turn-right) call on a Crashed skier
recovers them to Skiing at the starting speed, facing fully Left
(Right), and additionally sidesteps position.x by the starting speed
toward that side with position.y unchanged. -/
theorem C10_crash_recovery_sidestep (s : Skier) (h : s.state = SkierState.crashed) :
    (s.turnLeft).state = SkierState.skiing ∧
    (s.turnLeft).speed = STARTING_SPEED ∧
    (s.turnLeft).direction = DIRECTION_LEFT ∧
    (s.turnLeft).position.x = s.position.x - (STARTING_SPEED : ℚ) ∧
    (s.turnLeft).position.y = s.position.y ∧
    (s.turnRight).state = SkierState.skiing ∧
    (s.turnRight).speed = STARTING_SPEED ∧
    (s.turnRight).direction = DIRECTION_RIGHT ∧
    (s.turnRight).position.x = s.position.x + (STARTING_SPEED : ℚ) ∧
    (s.turnRight).position.y = s.position.y := by
  simp [Skier.turnLeft, Skier.turnRight, Skier.isCrashed, h, Skier.recoverFromCrash,
    Skier.setDirection, Skier.setDirectionalImage, Skier.moveSkierLeft,
    Skier.moveSkierRight, DIRECTION_LEFT, DIRECTION_RIGHT, DIRECTION_IMAGES]

/-- Witness for C10: the crashed initial skier. -/
theorem C10_crash_recovery_sidestep_witness :
    (Skier.initialSkier.crash).state = SkierState.crashed ∧
    (((Skier.initialSkier.crash).turnLeft).state = SkierState.skiing ∧
     ((Skier.initialSkier.crash).turnLeft).speed = STARTING_SPEED ∧
     ((Skier.initialSkier.crash).turnLeft).direction = DIRECTION_LEFT ∧
     ((Skier.initialSkier.crash).turnLeft).position.x =
       (Skier.initialSkier.crash).position.x - (STARTING_SPEED : ℚ) ∧
     ((Skier.initialSkier.crash).turnLeft).position.y =
       (Skier.initialSkier.crash).position.y ∧
     ((Skier.initialSkier.crash).turnRight).state = SkierState.skiing ∧
     ((Skier.initialSkier.crash).turnRight).speed = STARTING_SPEED ∧
     ((Skier.initialSkier.crash).turnRight).direction = DIRECTION_RIGHT ∧
     ((Skier.initialSkier.crash).turnRight).position.x =
       (Skier.initialSkier.crash).position.x + (STARTING_SPEED : ℚ) ∧
     ((Skier.initialSkier.crash).turnRight).position.y =
       (Skier.initialSkier.crash).position.y) :=
  ⟨rfl, C10_crash_recovery_sidestep (Skier.initialSkier.crash) rfl⟩

end CerosSki
